import Mathlib

/-!
Shallow embedding of the alx-project-nexus e-commerce backend
(Django apps `products`, `orders`, `reviews`, `users`) and proofs about it.

Conventions:
* `PositiveIntegerField` columns are modelled as `Nat`.
* Python integer arithmetic is modelled as `Int` where a difference can go
  negative (e.g. `total_qty - total_sold`).
* Decimal columns are modelled as `ℚ`.
* Database rows live in `List`s; a save that updates a row by primary key is
  a `List.map` replacing the matching id.
* Fallible request handlers return a response sum type.
-/

namespace Nexus

/-- products/models.py `Product` (persistent columns only; the relational
references are carried as ids). -/
structure Product where
  id : Nat
  name : String
  description : String
  brand : String
  categoryId : Nat
  userId : Nat
  sizes : List String
  price : ℚ
  total_qty : Nat
  total_sold : Nat
  deriving DecidableEq, Repr

/-- products/models.py `Product.SIZE_CHOICES`, first components. -/
def SIZE_CHOICES : List String := ["S", "M", "L", "XL", "XXL"]

/-- products/models.py `Product.qty_left`: `self.total_qty - self.total_sold`
(Python int subtraction, so the result may be negative). -/
def Product.qty_left (p : Product) : Int :=
  (p.total_qty : Int) - (p.total_sold : Int)

/-- products/models.py `Product.is_in_stock`: `self.qty_left > 0`. -/
def Product.is_in_stock (p : Product) : Bool :=
  p.qty_left > 0

/-- products/models.py `Product.is_low_stock`: `0 < self.qty_left <= threshold`
with the default `threshold=5`. -/
def Product.is_low_stock (p : Product) (threshold : Int := 5) : Bool :=
  0 < p.qty_left && p.qty_left ≤ threshold

/-- products/models.py `Product.clean`: reject a size outside `SIZE_CHOICES`,
then reject `total_sold > total_qty`. -/
def Product.clean (p : Product) : Except String Unit :=
  match p.sizes.find? (fun s => !(SIZE_CHOICES.contains s)) with
  | some s => .error ("Invalid size: " ++ s)
  | none =>
    if p.total_sold > p.total_qty then
      .error "Total sold cannot exceed total quantity"
    else
      .ok ()

/-- Validated payload of products/serializers.py `ProductCreateSerializer`
(fields `name description brand category_id sizes price total_qty`;
`total_sold` is not among the writable fields and keeps its model
default `0`). -/
structure ProductCreateData where
  name : String
  description : String
  brand : String
  category_id : Nat
  sizes : List String
  price : ℚ
  total_qty : Nat
  deriving Repr

/-- products/serializers.py `ProductCreateSerializer.create`:
`Product.objects.create(**validated_data)` with the requesting user;
`total_sold` takes the model default `0`. -/
def productCreate (d : ProductCreateData) (requesterId : Nat) (freshId : Nat) :
    Product :=
  { id := freshId
    name := d.name
    description := d.description
    brand := d.brand
    categoryId := d.category_id
    userId := requesterId
    sizes := d.sizes
    price := d.price
    total_qty := d.total_qty
    total_sold := 0 }

/-- Validated payload of products/serializers.py `ProductUpdateSerializer`
(partial update: each writable field is either absent or present). -/
structure ProductUpdateData where
  name : Option String := none
  description : Option String := none
  brand : Option String := none
  category_id : Option Nat := none
  sizes : Option (List String) := none
  price : Option ℚ := none
  total_qty : Option Nat := none
  total_sold : Option Nat := none
  deriving Repr

/-- products/serializers.py `ProductUpdateSerializer` field validation on
`is_valid()`: only `validate_category_id` (the category must exist).  There is
no cross-field check and `Model.clean` is not invoked. -/
def productUpdateIsValid (d : ProductUpdateData) (categoryExists : Nat → Bool) :
    Bool :=
  match d.category_id with
  | some c => categoryExists c
  | none => true

/-- products/serializers.py `ProductUpdateSerializer.update`: pop
`category_id` (truthy check), `setattr` every remaining validated field,
then `instance.save()` (which does not run `clean`). -/
def productUpdate (p : Product) (d : ProductUpdateData) : Product :=
  { p with
    categoryId :=
      match d.category_id with
      | some c => if c ≠ 0 then c else p.categoryId
      | none => p.categoryId
    name := d.name.getD p.name
    description := d.description.getD p.description
    brand := d.brand.getD p.brand
    sizes := d.sizes.getD p.sizes
    price := d.price.getD p.price
    total_qty := d.total_qty.getD p.total_qty
    total_sold := d.total_sold.getD p.total_sold }

/-- products/serializers.py `ProductDetailSerializer.validate`: the
cross-field check fires only when BOTH `total_sold` and `total_qty` are in
the incoming attrs. -/
def productDetailValidate (total_sold total_qty : Option Nat) :
    Except String Unit :=
  match total_sold, total_qty with
  | some s, some q =>
    if s > q then .error "Total sold cannot exceed total quantity" else .ok ()
  | _, _ => .ok ()

/-- products/views.py `AdminLowStockView.get_queryset`:
`Product.objects.filter(total_qty__lte=F('total_sold') + threshold)`
(ordering by `total_qty` left out; membership is what the claims concern). -/
def adminLowStockQueryset (ps : List Product) (threshold : Int) : List Product :=
  ps.filter (fun p => (p.total_qty : Int) ≤ (p.total_sold : Int) + threshold)

/-- products/views.py `AdminLowStockView.get_queryset` threshold parsing:
`int(self.request.query_params.get('threshold', 5))`. -/
def lowStockThreshold (param : Option Int) : Int :=
  param.getD 5

/-- products/views.py `AdminProductStatsView.get`, out-of-stock filter:
`Product.objects.filter(total_qty__lte=F('total_sold'))`. -/
def outOfStockQueryset (ps : List Product) : List Product :=
  ps.filter (fun p => (p.total_qty : Int) ≤ (p.total_sold : Int))

/-! ## Reviews (reviews/models.py, reviews/views.py) -/

/-- reviews/models.py `Review`. -/
structure Review where
  id : Nat
  productId : Nat
  userId : Nat
  rating : Nat
  comment : String
  deriving DecidableEq, Repr

/-- Python's `round` ties-to-even applied to a rational: the nearest integer,
with a half rounded to the even neighbour. -/
def pyRoundInt (q : ℚ) : ℤ :=
  if q - ⌊q⌋ = 1/2 then (if Even ⌊q⌋ then ⌊q⌋ else ⌊q⌋ + 1) else round q

/-- Python's `round(x, 1)`: round to one decimal place, ties to even. -/
def pyRound1 (q : ℚ) : ℚ :=
  (pyRoundInt (q * 10) : ℚ) / 10

/-- products/models.py `Product.average_rating` over the review table:
take this product's reviews, return `0.0` when there are none, else
`round(sum(ratings)/len(ratings), 1)`. -/
def Product.average_rating (p : Product) (reviews : List Review) : ℚ :=
  let rs := (reviews.filter (fun r => r.productId = p.id)).map Review.rating
  if rs.isEmpty then 0
  else pyRound1 ((rs.sum : ℚ) / (rs.length : ℚ))

/-- products/models.py `Product.total_reviews`: `self.reviews.count()`. -/
def Product.total_reviews (p : Product) (reviews : List Review) : Nat :=
  (reviews.filter (fun r => r.productId = p.id)).length

/-- Responses of reviews/views.py `ProductReviewView.post`. -/
inductive ReviewResp
  | notFound
  | alreadyReviewed
  | invalid (msg : String)
  | created (r : Review)
  deriving DecidableEq, Repr

/-- reviews/views.py `ProductReviewView.post`: 404 when the product does not
exist; 400 `'You have already reviewed this product'` when a review by this
user for this product exists (the store is left untouched); otherwise run the
serializer (rating must be in `[1,5]` by the model validators) and insert. -/
def productReviewPost (reviews : List Review) (products : List Product)
    (requesterId productId rating : Nat) (comment : String) (freshId : Nat) :
    List Review × ReviewResp :=
  if !(products.any (fun p => p.id = productId)) then
    (reviews, .notFound)
  else if reviews.any (fun r => r.productId = productId && r.userId = requesterId) then
    (reviews, .alreadyReviewed)
  else if rating < 1 || rating > 5 then
    (reviews, .invalid "Rating must be between 1 and 5")
  else
    let r : Review :=
      { id := freshId, productId := productId, userId := requesterId
        rating := rating, comment := comment }
    (reviews ++ [r], .created r)

/-! ## Product images (products/models.py `ProductImage`) -/

/-- products/models.py `ProductImage` (the Cloudinary asset is elided; the
flag and ownership are what the invariant concerns). -/
structure ProductImage where
  id : Nat
  productId : Nat
  alt_text : String
  is_primary : Bool
  deriving DecidableEq, Repr

/-- products/models.py `ProductImage.save`, first half: when the saved image
is primary, demote every other primary image of the same product
(`filter(product=…, is_primary=True).exclude(pk=self.pk).update(is_primary=False)`). -/
def demoteSiblings (imgs : List ProductImage) (img : ProductImage) :
    List ProductImage :=
  if img.is_primary then
    imgs.map (fun i =>
      if i.productId = img.productId && i.is_primary && i.id ≠ img.id then
        { i with is_primary := false }
      else i)
  else imgs

/-- `super().save()`: an UPDATE of the row with this pk when it exists, an
INSERT otherwise. -/
def dbSave (imgs : List ProductImage) (img : ProductImage) :
    List ProductImage :=
  if imgs.any (fun i => i.id = img.id) then
    imgs.map (fun i => if i.id = img.id then img else i)
  else
    imgs ++ [img]

/-- products/models.py `ProductImage.save`: the demotion step followed by
the row save. -/
def productImageSave (imgs : List ProductImage) (img : ProductImage) :
    List ProductImage :=
  dbSave (demoteSiblings imgs img) img

/-- The per-product primary-image invariant: any two primary images of the
same product are the same image. -/
def atMostOnePrimary (imgs : List ProductImage) : Prop :=
  ∀ i ∈ imgs, ∀ j ∈ imgs,
    i.productId = j.productId → i.is_primary → j.is_primary → i = j

/-! ## Orders (orders/models.py, orders/serializers.py, orders/views.py) -/

/-- orders/models.py `Order` (timestamps as `Nat` ticks; `delivered_at` is a
nullable column). -/
structure Order where
  id : Nat
  userId : Nat
  order_items : List (Nat × Nat)
  order_number : String
  payment_status : String
  total_price : ℚ
  status : String
  delivered_at : Option Nat
  deriving DecidableEq, Repr

/-- orders/models.py `string.ascii_uppercase + string.digits`, the population
of `random.choices(..., k=7)`. -/
def upperAlnum : List Char := "ABCDEFGHIJKLMNOPQRSTUVWXYZ0123456789".toList

/-- orders/models.py `generate_order_number` with the randomness injected:
`ks` are the seven choices from `upperAlnum` and `n` is the result of
`random.randint(10000, 99999)`; the two parts are concatenated by the
f-string. -/
def generate_order_number (ks : Fin 7 → Fin 36) (n : Nat) : String :=
  String.mk (List.ofFn (fun i => upperAlnum.getD (ks i).val 'A')) ++ toString n

/-- Order insertion against the store's uniqueness constraint on
`order_number` (orders/models.py: `unique=True`, default
`generate_order_number`): the model calls the generator once for the new
row's default; a collision with an existing number makes the INSERT fail
with an integrity error, and no code in orders/ catches it or regenerates. -/
def orderInsert (existing : List String) (candidate : String) :
    Except String String :=
  if existing.contains candidate then
    .error "UNIQUE constraint failed: order_number"
  else
    .ok candidate

/-- orders/models.py `Order.save`: auto-set `delivered_at` when the status is
`'delivered'` and `delivered_at` is unset, then persist. -/
def Order.save (o : Order) (now : Nat) : Order :=
  if o.status = "delivered" ∧ o.delivered_at = none then
    { o with delivered_at := some now }
  else o

/-- orders/models.py `Order.is_paid`:
`self.payment_status.lower() == 'paid'`. -/
def Order.is_paid (o : Order) : Bool :=
  o.payment_status.toLower = "paid"

/-- Validated payload of orders/serializers.py `OrderUpdateSerializer`
(writable fields `payment_status`, `status`, `delivered_at`; a PATCH may
carry any subset, and `delivered_at` may be set to a timestamp or to null). -/
structure OrderUpdateData where
  payment_status : Option String := none
  status : Option String := none
  delivered_at : Option (Option Nat) := none
  deriving Repr

/-- DRF `ModelSerializer.update` for `OrderUpdateSerializer`: `setattr` each
provided field on the instance, then `instance.save()` (which runs the
`delivered_at` auto-stamp hook). -/
def orderUpdate (o : Order) (d : OrderUpdateData) (now : Nat) : Order :=
  Order.save
    { o with
      payment_status := d.payment_status.getD o.payment_status
      status := d.status.getD o.status
      delivered_at := d.delivered_at.getD o.delivered_at }
    now

/-- The requesting principal (users/models.py `User`, the fields the order
views consult). -/
structure User where
  id : Nat
  is_admin : Bool
  deriving DecidableEq, Repr

/-- Responses of orders/views.py `cancel_order`. -/
inductive CancelResp
  | notFound
  | badRequest (msg : String)
  | ok (msg : String)
  deriving DecidableEq, Repr

/-- orders/views.py `cancel_order`:
`get_object_or_404(Order, id=order_id, user=request.user)` — the lookup is
scoped to the requesting user — then reject unless the status is
`'pending'`, else set the status to `'cancelled'` and save. -/
def cancel_order (orders : List Order) (requester : User) (order_id : Nat)
    (now : Nat) : List Order × CancelResp :=
  match orders.find? (fun o => o.id = order_id && o.userId = requester.id) with
  | none => (orders, .notFound)
  | some o =>
    if o.status ≠ "pending" then
      (orders, .badRequest "Can only cancel pending orders")
    else
      let o2 := Order.save { o with status := "cancelled" } now
      (orders.map (fun x => if x.id = o.id then o2 else x),
       .ok "Order cancelled successfully")

/-! ## Permissions (users/permissions.py and the views' permission wiring) -/

/-- HTTP methods the permission classes dispatch on. -/
inductive Method
  | get | post | put | patch | delete
  deriving DecidableEq, Repr

/-- `rest_framework.permissions.SAFE_METHODS` restricted to the methods the
routes expose (GET; HEAD/OPTIONS behave like GET). -/
def Method.isSafe : Method → Bool
  | .get => true
  | _ => false

/-- `request.user` as the permission classes see it: Django's
`AnonymousUser` has `is_authenticated = False`, authenticated users carry
the `is_admin` flag and their id. -/
structure Principal where
  is_authenticated : Bool
  is_admin : Bool
  id : Nat
  deriving DecidableEq, Repr

/-- The anonymous principal. -/
def anonymous : Principal := ⟨false, false, 0⟩

/-- users/permissions.py `IsAdminUser.has_permission`. -/
def isAdminUserPerm (u : Principal) : Bool :=
  u.is_authenticated && u.is_admin

/-- users/permissions.py `IsOwnerOrAdmin.has_permission`. -/
def isOwnerOrAdminPerm (u : Principal) : Bool :=
  u.is_authenticated

/-- users/permissions.py `IsOwnerOrAdmin.has_object_permission` for an
object owned by `ownerId` (the `hasattr(obj, 'user')` branch). -/
def isOwnerOrAdminObjPerm (u : Principal) (ownerId : Nat) : Bool :=
  u.is_admin || u.id = ownerId

/-- users/permissions.py `IsAdminOrReadOnly.has_permission`: for safe
methods require an authenticated user; for writes require an authenticated
admin. -/
def isAdminOrReadOnly (m : Method) (u : Principal) : Bool :=
  if m.isSafe then u.is_authenticated
  else u.is_authenticated && u.is_admin

/-- products/views.py `CategoryListCreateView` / `CategoryDetailView`:
`permission_classes = [IsAdminOrReadOnly]`. -/
def categoryPermission (m : Method) (u : Principal) : Bool :=
  isAdminOrReadOnly m u

/-- products/views.py `ProductListCreateView.get_permissions`: `IsAdminUser`
for POST, `AllowAny` otherwise. -/
def productListCreatePermission (m : Method) (u : Principal) : Bool :=
  match m with
  | .post => isAdminUserPerm u
  | _ => true

/-- products/views.py `ProductDetailView.get_permissions` combined with the
object check: `AllowAny` for GET, `IsOwnerOrAdmin` (request- and
object-level) for PUT/PATCH/DELETE against the product's owner. -/
def productDetailPermission (m : Method) (u : Principal) (ownerId : Nat) :
    Bool :=
  match m with
  | .get => true
  | _ => isOwnerOrAdminPerm u && isOwnerOrAdminObjPerm u ownerId

/-- reviews/views.py `ProductReviewView.get_permissions`: `IsAuthenticated`
for POST, `AllowAny` otherwise. -/
def reviewListCreatePermission (m : Method) (u : Principal) : Bool :=
  match m with
  | .post => u.is_authenticated
  | _ => true

/-! ## Theorems -/

/-- **C1** counterexample: the product update endpoint
(`ProductUpdateSerializer`) accepts a partial write carrying only
`total_sold = 10` against a product with `total_qty = 5` — its validation
checks only the category, and `Model.clean` is not run on this path — and
the resulting product has `qty_left = -5 < 0`, contradicting the claim that
every mutation preserves `qty_left >= 0` and that such a write is rejected. -/
theorem C1_update_breaks_invariant :
    productUpdateIsValid { total_sold := some 10 } (fun _ => true) = true
    ∧ (productUpdate
        { id := 1, name := "Tee", description := "d", brand := "b",
          categoryId := 1, userId := 1, sizes := ["S"], price := 10,
          total_qty := 5, total_sold := 0 }
        { total_sold := some 10 }).qty_left = -5 := by
  exact ⟨rfl, by decide⟩

/-- **C1** (amended): `qty_left` always equals `total_qty - total_sold` as
integers; the create path fixes `total_sold = 0` so a fresh product has
`qty_left = total_qty ≥ 0`; `Product.clean` accepts only
`total_sold ≤ total_qty`; and `ProductDetailSerializer.validate` rejects
`total_sold > total_qty` when both fields are supplied.  (The update
endpoint, per the counterexample, enforces none of this.) -/
theorem C1_qty_left_equation :
    (∀ p : Product, p.qty_left = (p.total_qty : Int) - (p.total_sold : Int))
    ∧ (∀ (d : ProductCreateData) (rid fid : Nat),
        (productCreate d rid fid).total_sold = 0
        ∧ 0 ≤ (productCreate d rid fid).qty_left)
    ∧ (∀ p : Product, p.clean = .ok () → p.total_sold ≤ p.total_qty)
    ∧ (∀ s q : Nat, q < s →
        productDetailValidate (some s) (some q) =
          .error "Total sold cannot exceed total quantity") := by
  refine ⟨fun p => rfl, fun d rid fid => ⟨rfl, ?_⟩, fun p h => ?_, fun s q h => ?_⟩
  · simp [productCreate, Product.qty_left]
  · unfold Product.clean at h
    split at h
    · exact absurd h (by simp)
    · split at h
      · exact absurd h (by simp)
      · omega
  · simp [productDetailValidate, h]

/-- **C1** witness: the amended theorem applied at concrete inputs — a clean
product with `total_sold = 3 ≤ 5 = total_qty`, and a rejected detail-payload
with `total_sold = 6 > 5 = total_qty`. -/
theorem C1_qty_left_equation_witness :
    ({ id := 1, name := "n", description := "d", brand := "b", categoryId := 1,
       userId := 1, sizes := ["S", "M"], price := 2, total_qty := 5,
       total_sold := 3 } : Product).total_sold ≤ 5
    ∧ productDetailValidate (some 6) (some 5) =
        .error "Total sold cannot exceed total quantity" :=
  ⟨C1_qty_left_equation.2.2.1 _ rfl, C1_qty_left_equation.2.2.2 6 5 (by decide)⟩

/-- **C2** counterexample: when the generated candidate collides with an
existing order number, the insert fails with the uniqueness-constraint
error — nothing in orders/ catches it or regenerates, so the collision IS
surfaced to the caller, contradicting the claimed retry loop. -/
theorem C2_collision_surfaces :
    orderInsert ["AB12CDE10000"] "AB12CDE10000" =
      .error "UNIQUE constraint failed: order_number" := by
  rfl

/-- **C2** (amended): each creation draws ONE candidate — seven characters
from the uppercase-alphanumeric population followed by the decimal digits of
a number in `[10000, 99999]` (which has exactly five digits) — and the
store-level uniqueness constraint accepts a fresh candidate and rejects a
colliding one with an error; there is no retry. -/
theorem C2_order_number_generation :
    (∀ (ks : Fin 7 → Fin 36) (n : Nat),
        ∃ cs : List Char, cs.length = 7 ∧ (∀ c ∈ cs, c ∈ upperAlnum)
          ∧ generate_order_number ks n = String.mk cs ++ toString n)
    ∧ (∀ n : Nat, 10000 ≤ n → n ≤ 99999 → (Nat.digits 10 n).length = 5)
    ∧ (∀ (existing : List String) (c : String), c ∉ existing →
        orderInsert existing c = .ok c)
    ∧ (∀ (existing : List String) (c : String), c ∈ existing →
        orderInsert existing c =
          .error "UNIQUE constraint failed: order_number") := by
  refine ⟨fun ks n => ⟨_, List.length_ofFn _, fun c hc => ?_, rfl⟩,
    fun n h1 h2 => ?_, fun existing c h => ?_, fun existing c h => ?_⟩
  · rcases (List.mem_ofFn _ _).mp hc with ⟨i, rfl⟩
    have hlen : (ks i).val < upperAlnum.length := by
      have h36 : upperAlnum.length = 36 := rfl
      rw [h36]
      exact (ks i).isLt
    show upperAlnum.getD (ks i).val 'A' ∈ upperAlnum
    rw [List.getD_eq_getElem _ _ hlen]
    exact List.getElem_mem hlen
  · rw [Nat.digits_len 10 n (by norm_num) (by omega)]
    have : Nat.log 10 n = 4 :=
      Nat.log_eq_of_pow_le_of_lt_pow (by norm_num; omega) (by norm_num; omega)
    omega
  · simp only [orderInsert]
    rw [if_neg]
    simpa using h
  · simp only [orderInsert]
    rw [if_pos]
    simpa using h

/-- **C2** witness: the amended theorem at a concrete draw (all seven
choices index 0, numeric part 12345) and a concrete fresh insert. -/
theorem C2_order_number_generation_witness :
    (∃ cs : List Char, cs.length = 7 ∧ (∀ c ∈ cs, c ∈ upperAlnum)
      ∧ generate_order_number (fun _ => ⟨0, by decide⟩) 12345 =
          String.mk cs ++ toString 12345)
    ∧ (Nat.digits 10 12345).length = 5
    ∧ orderInsert [] "AAAAAAA12345" = .ok "AAAAAAA12345" :=
  ⟨C2_order_number_generation.1 _ 12345,
   C2_order_number_generation.2.1 12345 (by decide) (by decide),
   C2_order_number_generation.2.2.1 [] _ (by decide)⟩

/-- **C7** counterexample: a product with `total_qty = total_sold = 3`
(`qty_left = 0`) is returned by the admin low-stock queryset at the default
threshold 5, contradicting the claim that the low-stock result contains only
products with `0 < qty_left`. -/
theorem C7_out_of_stock_in_low_stock :
    adminLowStockQueryset
      [{ id := 1, name := "n", description := "d", brand := "b",
         categoryId := 1, userId := 1, sizes := [], price := 3,
         total_qty := 3, total_sold := 3 }] (lowStockThreshold none) =
      [{ id := 1, name := "n", description := "d", brand := "b",
         categoryId := 1, userId := 1, sizes := [], price := 3,
         total_qty := 3, total_sold := 3 }]
    ∧ ({ id := 1, name := "n", description := "d", brand := "b",
         categoryId := 1, userId := 1, sizes := [], price := 3,
         total_qty := 3, total_sold := 3 } : Product).qty_left = 0 := by
  constructor
  · rfl
  · decide

/-- **C7** (amended): the admin low-stock queryset returns exactly the
products with `qty_left ≤ threshold` (default 5 when the parameter is
absent) — with no lower bound, so out-of-stock products are included — and
the out-of-stock query returns exactly the products with `qty_left ≤ 0`;
a product with `qty_left = 0` therefore appears in both. -/
theorem C7_stock_queries :
    (∀ (ps : List Product) (t : Int) (p : Product),
        p ∈ adminLowStockQueryset ps t ↔ p ∈ ps ∧ p.qty_left ≤ t)
    ∧ (∀ (ps : List Product) (p : Product),
        p ∈ outOfStockQueryset ps ↔ p ∈ ps ∧ p.qty_left ≤ 0)
    ∧ lowStockThreshold none = 5 := by
  refine ⟨fun ps t p => ?_, fun ps p => ?_, rfl⟩
  · simp only [adminLowStockQueryset, List.mem_filter, decide_eq_true_eq,
      Product.qty_left]
    constructor
    · rintro ⟨h1, h2⟩
      exact ⟨h1, by omega⟩
    · rintro ⟨h1, h2⟩
      exact ⟨h1, by omega⟩
  · simp only [outOfStockQueryset, List.mem_filter, decide_eq_true_eq,
      Product.qty_left]
    constructor
    · rintro ⟨h1, h2⟩
      exact ⟨h1, by omega⟩
    · rintro ⟨h1, h2⟩
      exact ⟨h1, by omega⟩

/-- Any element of a saved image list is the saved row itself or a row with
a different pk that was already in the list handed to the row save. -/
lemma mem_dbSave (l : List ProductImage) (img : ProductImage) :
    ∀ i ∈ dbSave l img, i = img ∨ (i ∈ l ∧ i.id ≠ img.id) := by
  intro i hi
  unfold dbSave at hi
  split at hi
  · rcases List.mem_map.mp hi with ⟨a, ha, rfl⟩
    by_cases hid : a.id = img.id
    · rw [if_pos hid]
      exact Or.inl rfl
    · rw [if_neg hid]
      exact Or.inr ⟨ha, hid⟩
  · rename_i hany
    rcases List.mem_append.mp hi with h | h
    · refine Or.inr ⟨h, fun he => hany ?_⟩
      exact List.any_eq_true.mpr ⟨i, h, by simp [he]⟩
    · exact Or.inl (by simpa using h)

/-- The saved row is in the result of the row save. -/
lemma self_mem_dbSave (l : List ProductImage) (img : ProductImage) :
    img ∈ dbSave l img := by
  unfold dbSave
  split
  · rename_i hany
    rcases List.any_eq_true.mp hany with ⟨a, ha, hid⟩
    exact List.mem_map.mpr ⟨a, ha, if_pos (of_decide_eq_true hid)⟩
  · exact List.mem_append.mpr (Or.inr (by simp))

/-- After the demotion step of a primary save, a sibling row (same product,
different pk) is no longer primary, and rows of other products pass through
untouched. -/
lemma mem_demoteSiblings_of_primary (imgs : List ProductImage)
    (img : ProductImage) (hp : img.is_primary = true) :
    ∀ i ∈ demoteSiblings imgs img,
      (i.id ≠ img.id → i.productId = img.productId → i.is_primary = false)
      ∧ (i.productId ≠ img.productId → i ∈ imgs) := by
  intro i hi
  unfold demoteSiblings at hi
  rw [if_pos hp] at hi
  rcases List.mem_map.mp hi with ⟨a, ha, rfl⟩
  by_cases hc : (a.productId = img.productId && a.is_primary
      && !(a.id = img.id)) = true
  · rw [if_pos (by simpa using hc)]
    have hmatch : a.productId = img.productId := by
      simp only [Bool.and_eq_true, decide_eq_true_eq] at hc
      exact hc.1.1
    exact ⟨fun _ _ => rfl, fun hne => absurd hmatch hne⟩
  · rw [if_neg (by simpa using hc)]
    refine ⟨fun hid hmatch => ?_, fun _ => ha⟩
    cases hstate : a.is_primary with
    | false => rfl
    | true => exact absurd (by simp [hmatch, hstate, hid]) hc

/-- A save with `is_primary = False` skips the demotion step. -/
lemma demoteSiblings_of_not_primary (imgs : List ProductImage)
    (img : ProductImage) (hp : img.is_primary = false) :
    demoteSiblings imgs img = imgs := by
  unfold demoteSiblings
  rw [if_neg (by simp [hp])]

/-- **C3**: saving an image with `is_primary = true` leaves exactly that
image primary among its product's images (it is present, and every primary
image of the product in the new state is it); and any `ProductImage.save`
preserves the at-most-one-primary-per-product invariant. -/
theorem C3_primary_image_invariant :
    (∀ (imgs : List ProductImage) (img : ProductImage),
        img.is_primary = true →
        img ∈ productImageSave imgs img
        ∧ (∀ i ∈ productImageSave imgs img,
            i.productId = img.productId → i.is_primary = true → i = img))
    ∧ (∀ (imgs : List ProductImage) (img : ProductImage),
        atMostOnePrimary imgs →
        atMostOnePrimary (productImageSave imgs img)) := by
  constructor
  · intro imgs img hp
    refine ⟨self_mem_dbSave _ _, fun i hi hmatch hprim => ?_⟩
    rcases mem_dbSave _ _ i hi with h | ⟨hmem, hid⟩
    · exact h
    · have hfalse :=
        (mem_demoteSiblings_of_primary imgs img hp i hmem).1 hid hmatch
      rw [hfalse] at hprim
      exact absurd hprim (by simp)
  · intro imgs img hinv
    cases hp : img.is_primary with
    | true =>
      have key : ∀ i ∈ productImageSave imgs img, i.is_primary = true →
          i = img ∨ (i ∈ imgs ∧ i.productId ≠ img.productId) := by
        intro i hi hprim
        rcases mem_dbSave _ _ i hi with h | ⟨hmem, hid⟩
        · exact Or.inl h
        · by_cases hmatch : i.productId = img.productId
          · have hfalse :=
              (mem_demoteSiblings_of_primary imgs img hp i hmem).1 hid hmatch
            rw [hfalse] at hprim
            exact absurd hprim (by simp)
          · exact Or.inr
              ⟨(mem_demoteSiblings_of_primary imgs img hp i hmem).2 hmatch,
               hmatch⟩
      intro i hi j hj hpid hpi hpj
      rcases key i hi hpi with hi' | ⟨hi', hine⟩
      · rcases key j hj hpj with hj' | ⟨hj', hjne⟩
        · rw [hi', hj']
        · exact absurd (by rw [← hpid, hi']) hjne
      · rcases key j hj hpj with hj' | ⟨hj', hjne⟩
        · exact absurd (by rw [hpid, hj']) hine
        · exact hinv i hi' j hj' hpid hpi hpj
    | false =>
      have hd : demoteSiblings imgs img = imgs :=
        demoteSiblings_of_not_primary _ _ hp
      intro i hi j hj hpid hpi hpj
      unfold productImageSave at hi hj
      rw [hd] at hi hj
      rcases mem_dbSave _ _ i hi with h | ⟨hi', _⟩
      · rw [h, hp] at hpi
        exact absurd hpi (by simp)
      · rcases mem_dbSave _ _ j hj with h | ⟨hj', _⟩
        · rw [h, hp] at hpj
          exact absurd hpj (by simp)
        · exact hinv i hi' j hj' hpid hpi hpj

/-- **C3** witness: saving image 2 as primary for product 10, which already
has primary image 1, leaves image 2 present and the state satisfying the
at-most-one-primary invariant. -/
theorem C3_primary_image_invariant_witness :
    (⟨2, 10, "b", true⟩ : ProductImage) ∈
      productImageSave [⟨1, 10, "a", true⟩] ⟨2, 10, "b", true⟩
    ∧ atMostOnePrimary
        (productImageSave [⟨1, 10, "a", true⟩] ⟨2, 10, "b", true⟩) :=
  ⟨(C3_primary_image_invariant.1 [⟨1, 10, "a", true⟩] ⟨2, 10, "b", true⟩ rfl).1,
   C3_primary_image_invariant.2 [⟨1, 10, "a", true⟩] ⟨2, 10, "b", true⟩
     (by
       intro i hi j hj _ _ _
       simp only [List.mem_singleton] at hi hj
       rw [hi, hj])⟩

/-- A model save never clears or changes an already-set `delivered_at`. -/
lemma save_keeps_set_delivered_at (o : Order) (now t : Nat)
    (h : o.delivered_at = some t) : (o.save now).delivered_at = some t := by
  unfold Order.save
  split
  · rename_i hc
    rw [hc.2] at h
    exact absurd h (by simp)
  · exact h

/-- A model save touches only `delivered_at`; in particular the status is
kept. -/
lemma save_status (o : Order) (now : Nat) : (o.save now).status = o.status := by
  unfold Order.save
  split <;> rfl

/-- **C4** counterexample: an order already delivered at time 100 is
patched through the update endpoint (`OrderUpdateSerializer` lists
`delivered_at` among its writable fields) with `delivered_at = 200`, and the
stored timestamp becomes 200 — the claim that `delivered_at` is never
overwritten by the update endpoint fails. -/
theorem C4_update_overwrites_delivered_at :
    (orderUpdate
      { id := 1, userId := 1, order_items := [(1, 1)], order_number := "X",
        payment_status := "paid", total_price := 5, status := "delivered",
        delivered_at := some 100 }
      { delivered_at := some (some 200) } 300).delivered_at = some 200 := by
  rfl

/-- **C4** (amended): the model save stamps `delivered_at` with the current
time exactly at the first save where the status is `delivered` and
`delivered_at` is unset; any save of an order whose `delivered_at` is
already set keeps it, and a save with a non-`delivered` status changes
nothing — but the update endpoint exposes `delivered_at` as a writable
field, so a PATCH carrying it does overwrite the stored value. -/
theorem C4_delivered_at_stamp :
    (∀ (o : Order) (now : Nat),
        o.status = "delivered" → o.delivered_at = none →
        (o.save now).delivered_at = some now)
    ∧ (∀ (o : Order) (now t : Nat), o.delivered_at = some t →
        (o.save now).delivered_at = some t)
    ∧ (∀ (o : Order) (now : Nat), o.status ≠ "delivered" → o.save now = o)
    ∧ (∀ (o : Order) (d : OrderUpdateData) (now t : Nat),
        d.delivered_at = some (some t) →
        (orderUpdate o d now).delivered_at = some t) := by
  refine ⟨fun o now h1 h2 => ?_, fun o now t h =>
    save_keeps_set_delivered_at o now t h, fun o now h => ?_,
    fun o d now t h => ?_⟩
  · unfold Order.save
    rw [if_pos ⟨h1, h2⟩]
  · unfold Order.save
    rw [if_neg (fun hc => h hc.1)]
  · unfold orderUpdate
    exact save_keeps_set_delivered_at _ now t (by simp [h])

/-- **C4** witness: a first delivered save at time 50 stamps 50; a re-save
at time 99 keeps 50. -/
theorem C4_delivered_at_stamp_witness :
    (({ id := 1, userId := 1, order_items := [], order_number := "N",
          payment_status := "Not paid", total_price := 1,
          status := "delivered",
          delivered_at := none } : Order).save 50).delivered_at = some 50
    ∧ (({ id := 1, userId := 1, order_items := [], order_number := "N",
            payment_status := "Not paid", total_price := 1,
            status := "delivered",
            delivered_at := some 50 } : Order).save 99).delivered_at =
        some 50 :=
  ⟨C4_delivered_at_stamp.1 _ 50 rfl rfl,
   C4_delivered_at_stamp.2.1 _ 99 50 rfl⟩

/-- **C5**: cancellation succeeds exactly on a pending order of the
requesting user — the order's status becomes `cancelled` — while a found
order in any other status yields the 400 error with the store untouched,
and a missing (or other-owned) order yields 404 with the store untouched. -/
theorem C5_cancel_only_pending :
    (∀ (orders : List Order) (u : User) (oid now : Nat) (o : Order),
        orders.find? (fun x => x.id = oid && x.userId = u.id) = some o →
        o.status = "pending" →
        cancel_order orders u oid now =
          (orders.map (fun x => if x.id = o.id then
              Order.save { o with status := "cancelled" } now else x),
           .ok "Order cancelled successfully")
        ∧ (Order.save { o with status := "cancelled" } now).status =
            "cancelled"
        ∧ ∀ x ∈ (cancel_order orders u oid now).1,
            x.id = oid → x.status = "cancelled")
    ∧ (∀ (orders : List Order) (u : User) (oid now : Nat) (o : Order),
        orders.find? (fun x => x.id = oid && x.userId = u.id) = some o →
        o.status ≠ "pending" →
        cancel_order orders u oid now =
          (orders, .badRequest "Can only cancel pending orders"))
    ∧ (∀ (orders : List Order) (u : User) (oid now : Nat),
        orders.find? (fun x => x.id = oid && x.userId = u.id) = none →
        cancel_order orders u oid now = (orders, .notFound)) := by
  refine ⟨fun orders u oid now o hfind hpend => ?_,
    fun orders u oid now o hfind hpend => ?_, fun orders u oid now hfind => ?_⟩
  · have heq : cancel_order orders u oid now =
        (orders.map (fun x => if x.id = o.id then
            Order.save { o with status := "cancelled" } now else x),
         .ok "Order cancelled successfully") := by
      unfold cancel_order
      rw [hfind]
      exact if_neg (fun hne => hne hpend)
    have hoid : o.id = oid := by
      have := List.find?_some hfind
      simp only [Bool.and_eq_true, decide_eq_true_eq] at this
      exact this.1
    refine ⟨heq, save_status _ _, fun x hx hxid => ?_⟩
    rw [heq] at hx
    rcases List.mem_map.mp hx with ⟨a, _, rfl⟩
    by_cases hid : a.id = o.id
    · rw [if_pos hid, save_status]
    · rw [if_neg hid] at hxid ⊢
      exact absurd (hxid.trans hoid.symm) hid
  · unfold cancel_order
    rw [hfind]
    exact if_pos hpend
  · unfold cancel_order
    rw [hfind]

/-- **C5** witness: cancelling a pending order of user 1 succeeds and the
stored order is cancelled; cancelling the same order once it is processing
is the 400 error with the store unchanged. -/
theorem C5_cancel_only_pending_witness :
    (cancel_order [{ id := 5, userId := 1, order_items := [],
                     order_number := "N", payment_status := "Not paid",
                     total_price := 1, status := "processing",
                     delivered_at := none }] ⟨1, false⟩ 5 0 =
      ([{ id := 5, userId := 1, order_items := [], order_number := "N",
          payment_status := "Not paid", total_price := 1,
          status := "processing", delivered_at := none }],
       .badRequest "Can only cancel pending orders"))
    ∧ ∀ x ∈ (cancel_order [{ id := 5, userId := 1, order_items := [],
                             order_number := "N",
                             payment_status := "Not paid", total_price := 1,
                             status := "pending",
                             delivered_at := none }] ⟨1, false⟩ 5 0).1,
        x.id = 5 → x.status = "cancelled" :=
  ⟨C5_cancel_only_pending.2.1 _ ⟨1, false⟩ 5 0 _ (by rfl) (by decide),
   (C5_cancel_only_pending.1 _ ⟨1, false⟩ 5 0 _ (by rfl) rfl).2.2⟩

/-- Rounding an integer rational is the identity. -/
lemma pyRoundInt_intCast (z : ℤ) : pyRoundInt (z : ℚ) = z := by
  unfold pyRoundInt
  rw [Int.floor_intCast]
  rw [if_neg (by rw [sub_self]; norm_num)]
  exact round_intCast z

/-- `pyRound1` fixes integer rationals. -/
lemma pyRound1_intCast (z : ℤ) : pyRound1 (z : ℚ) = (z : ℚ) := by
  unfold pyRound1
  rw [show ((z : ℚ) * 10) = ((z * 10 : ℤ) : ℚ) by push_cast; ring]
  rw [pyRoundInt_intCast]
  push_cast
  field_simp

/-- Ten times a one-decimal rounding is an integer. -/
lemma pyRound1_mul_ten (q : ℚ) :
    pyRound1 q * 10 = (pyRoundInt (q * 10) : ℚ) := by
  rw [pyRound1, div_mul_cancel₀]
  norm_num

/-- **C6**: `average_rating` is `0.0` for a product with no reviews, is the
arithmetic mean of the product's review ratings rounded to one decimal
place otherwise (in particular ratings `[4, 5, 3]` give `4.0`), and always
carries at most one decimal place. -/
theorem C6_average_rating :
    (∀ (p : Product) (reviews : List Review),
        reviews.filter (fun r => r.productId = p.id) = [] →
        p.average_rating reviews = 0)
    ∧ (∀ (p : Product) (reviews : List Review),
        reviews.filter (fun r => r.productId = p.id) ≠ [] →
        p.average_rating reviews =
          pyRound1
            ((((reviews.filter (fun r => r.productId = p.id)).map
                  Review.rating).sum : ℚ) /
              (((reviews.filter (fun r => r.productId = p.id)).map
                  Review.rating).length : ℚ)))
    ∧ (∀ (p : Product) (reviews : List Review), ∃ z : ℤ,
        p.average_rating reviews * 10 = z)
    ∧ ({ id := 7, name := "n", description := "d", brand := "b",
         categoryId := 1, userId := 1, sizes := [], price := 1,
         total_qty := 1, total_sold := 0 } : Product).average_rating
        [⟨1, 7, 1, 4, ""⟩, ⟨2, 7, 2, 5, ""⟩, ⟨3, 7, 3, 3, ""⟩] = 4 := by
  refine ⟨fun p reviews h => ?_, fun p reviews h => ?_,
    fun p reviews => ?_, ?_⟩
  · simp [Product.average_rating, h]
  · rw [Product.average_rating]
    rw [if_neg (by simp [h])]
  · rw [Product.average_rating]
    split
    · exact ⟨0, by norm_num⟩
    · exact ⟨_, pyRound1_mul_ten _⟩
  · rw [Product.average_rating]
    rw [if_neg (by decide)]
    norm_num
    rw [show (4 : ℚ) = ((4 : ℤ) : ℚ) by norm_num, pyRound1_intCast]

/-- **C6** witness: the no-reviews case at a concrete product (no review of
product 7 in the table), and the mean-formula case at one review rated 2. -/
theorem C6_average_rating_witness :
    ({ id := 7, name := "n", description := "d", brand := "b",
       categoryId := 1, userId := 1, sizes := [], price := 1,
       total_qty := 1, total_sold := 0 } : Product).average_rating
        [⟨1, 9, 1, 4, ""⟩] = 0
    ∧ ({ id := 7, name := "n", description := "d", brand := "b",
         categoryId := 1, userId := 1, sizes := [], price := 1,
         total_qty := 1, total_sold := 0 } : Product).average_rating
        [⟨1, 7, 1, 2, ""⟩] = pyRound1 ((2 : ℚ) / 1) := by
  constructor
  · exact C6_average_rating.1 _ [⟨1, 9, 1, 4, ""⟩] (by decide)
  · have h := C6_average_rating.2.1
      { id := 7, name := "n", description := "d", brand := "b",
        categoryId := 1, userId := 1, sizes := [], price := 1,
        total_qty := 1, total_sold := 0 } [⟨1, 7, 1, 2, ""⟩] (by decide)
    simpa using h

/-- **C8**: a second review for the same (user, product) pair is rejected
with the conflict error and leaves the review table untouched, while a
first review by a user for an existing product with a valid rating is
inserted as given. -/
theorem C8_one_review_per_pair :
    (∀ (reviews : List Review) (products : List Product)
        (uid pid rating fid : Nat) (c : String) (r : Review),
        products.any (fun p => p.id = pid) = true →
        r ∈ reviews → r.productId = pid → r.userId = uid →
        productReviewPost reviews products uid pid rating c fid =
          (reviews, .alreadyReviewed))
    ∧ (∀ (reviews : List Review) (products : List Product)
        (uid pid rating fid : Nat) (c : String),
        products.any (fun p => p.id = pid) = true →
        (∀ r ∈ reviews, ¬(r.productId = pid ∧ r.userId = uid)) →
        1 ≤ rating → rating ≤ 5 →
        productReviewPost reviews products uid pid rating c fid =
          (reviews ++ [⟨fid, pid, uid, rating, c⟩],
           .created ⟨fid, pid, uid, rating, c⟩)) := by
  constructor
  · intro reviews products uid pid rating fid c r hprod hr hrp hru
    unfold productReviewPost
    rw [hprod]
    rw [if_neg (by simp)]
    rw [if_pos (List.any_eq_true.mpr ⟨r, hr, by simp [hrp, hru]⟩)]
  · intro reviews products uid pid rating fid c hprod hnone h1 h5
    unfold productReviewPost
    rw [hprod]
    rw [if_neg (by simp)]
    rw [if_neg ?hexists, if_neg ?hrange]
    case hexists =>
      simp only [List.any_eq_true, Bool.and_eq_true, decide_eq_true_eq,
        not_exists, not_and]
      intro r hr hrp
      exact fun hru => hnone r hr ⟨hrp, hru⟩
    case hrange =>
      simp only [Bool.or_eq_true, decide_eq_true_eq, not_or, not_lt]
      omega

/-- **C8** witness: with user 1's review of product 7 on file, the same
user's second attempt is rejected and the table is unchanged, so the
product's average rating still reflects only the accepted review. -/
theorem C8_one_review_per_pair_witness :
    productReviewPost [⟨1, 7, 1, 4, ""⟩]
        [{ id := 7, name := "n", description := "d", brand := "b",
           categoryId := 1, userId := 1, sizes := [], price := 1,
           total_qty := 1, total_sold := 0 }] 1 7 5 "again" 2 =
      ([⟨1, 7, 1, 4, ""⟩], .alreadyReviewed)
    ∧ ({ id := 7, name := "n", description := "d", brand := "b",
         categoryId := 1, userId := 1, sizes := [], price := 1,
         total_qty := 1, total_sold := 0 } : Product).average_rating
        [⟨1, 7, 1, 4, ""⟩] = 4 := by
  constructor
  · exact C8_one_review_per_pair.1 _ _ 1 7 5 2 "again" ⟨1, 7, 1, 4, ""⟩
      (by decide) (by simp) rfl rfl
  · rw [Product.average_rating]
    rw [if_neg (by decide)]
    norm_num
    rw [show (4 : ℚ) = ((4 : ℤ) : ℚ) by norm_num, pyRound1_intCast]

/-- **C9** counterexample: an anonymous GET on category data is DENIED
(`IsAdminOrReadOnly` demands an authenticated user even for safe methods,
contrary to the claim and to the class's own docstring), and a PATCH on a
product by its non-admin owner is allowed, so product mutation does not
require an admin principal. -/
theorem C9_permission_counterexample :
    categoryPermission .get anonymous = false
    ∧ productDetailPermission .patch ⟨true, false, 42⟩ 42 = true
    ∧ (⟨true, false, 42⟩ : Principal).is_admin = false := by
  decide

/-- **C9** (amended): product and review reads are open to anonymous
principals, but category reads require an authenticated principal; review
creation requires exactly authentication; category mutation and product
creation require an authenticated admin; product update/delete require an
authenticated admin-or-owner. -/
theorem C9_access_control :
    (∀ (u : Principal) (ownerId : Nat),
        productListCreatePermission .get u = true
        ∧ productDetailPermission .get u ownerId = true
        ∧ reviewListCreatePermission .get u = true)
    ∧ (∀ u : Principal, categoryPermission .get u = u.is_authenticated)
    ∧ (∀ u : Principal,
        categoryPermission .post u = (u.is_authenticated && u.is_admin))
    ∧ (∀ u : Principal,
        productListCreatePermission .post u =
          (u.is_authenticated && u.is_admin))
    ∧ (∀ (u : Principal) (ownerId : Nat),
        productDetailPermission .patch u ownerId =
          (u.is_authenticated && (u.is_admin || u.id = ownerId))
        ∧ productDetailPermission .delete u ownerId =
          (u.is_authenticated && (u.is_admin || u.id = ownerId)))
    ∧ (∀ u : Principal,
        reviewListCreatePermission .post u = u.is_authenticated) := by
  exact ⟨fun u o => ⟨rfl, rfl, rfl⟩, fun u => rfl, fun u => rfl, fun u => rfl,
    fun u o => ⟨rfl, rfl⟩, fun u => rfl⟩

/-- **C10**: the cancel endpoint's lookup is scoped to the requesting user:
when no order matches both the id and the requester, the response is 404
and the store is unchanged — and the outcome depends on the requester only
through their id, so an admin flag changes nothing. -/
theorem C10_cancel_scoped_to_owner :
    (∀ (orders : List Order) (requester : User) (oid now : Nat),
        (∀ o ∈ orders, o.id = oid → o.userId ≠ requester.id) →
        cancel_order orders requester oid now = (orders, .notFound))
    ∧ (∀ (orders : List Order) (r1 r2 : User) (oid now : Nat),
        r1.id = r2.id →
        cancel_order orders r1 oid now = cancel_order orders r2 oid now) := by
  constructor
  · intro orders requester oid now h
    have hfind : orders.find?
        (fun x => x.id = oid && x.userId = requester.id) = none := by
      rw [List.find?_eq_none]
      intro x hx
      simp only [Bool.and_eq_true, decide_eq_true_eq, not_and]
      exact fun hid => h x hx hid
    unfold cancel_order
    rw [hfind]
  · intro orders r1 r2 oid now h
    unfold cancel_order
    rw [h]

/-- **C10** witness: an admin requester (id 2) asking to cancel order 5,
which belongs to user 1, receives 404 with the store unchanged. -/
theorem C10_cancel_scoped_to_owner_witness :
    cancel_order [{ id := 5, userId := 1, order_items := [],
                    order_number := "N", payment_status := "Not paid",
                    total_price := 1, status := "pending",
                    delivered_at := none }] ⟨2, true⟩ 5 0 =
      ([{ id := 5, userId := 1, order_items := [], order_number := "N",
          payment_status := "Not paid", total_price := 1,
          status := "pending", delivered_at := none }], .notFound) :=
  C10_cancel_scoped_to_owner.1 _ ⟨2, true⟩ 5 0 (by decide)

end Nexus
